import Mathlib

/-!
Verification of the `portfolio-insights/market-service` HTTP microservice
(`src/market_service/main.go`, `src/utils.go`) against its natural-language
specification.

The service is three HTTP handlers (`/health`, `/stocks`, `/check-alert`),
each a single linear pass: read query parameters, read the API key from the
environment, make one upstream HTTP GET, and transform the decoded JSON.

Shallow embedding conventions:
* float64 prices are modelled as rationals (`ℚ`): only order comparisons and
  field selection matter to the handlers, never floating-point rounding.
* The external world reached per request — the upstream HTTP call
  (`http.Get`), `strconv.ParseFloat`, and the `%.2f` rendering inside
  `fmt.Sprintf` — is passed to each handler as an explicit argument.
  `http.Get` either fails (connection error, possibly a timeout) or yields a
  status code with a body; the body is carried already decoded, as the list
  `json.Unmarshal` leaves in the target slice.  The Go code ignores the
  unmarshal error, so the error outcome is folded into the slice contents:
  `none` stands for a failure that leaves the slice at its zero value (nil),
  while a decode that errors after partially populating the slice — Go
  "skips that field and completes the unmarshaling as best it can" — is
  carried as `some` of the partially-populated list.
* `http.Error w msg code` writes `msg` as a plain-text body (we model the
  message itself; the uniform trailing newline it appends is dropped), while
  `json.NewEncoder(w).Encode(v)` writes a JSON value; the two are kept apart
  by the `RespBody` type.
-/

namespace MarketService

/-- Struct `PricePoint` from `main.go`: one entry of the Tiingo historical price
API, `{date, close}`. -/
structure PricePoint where
  date : String
  close : ℚ
deriving DecidableEq, Repr

/-- Struct `LastPrice` from `main.go`: a quote snapshot, `last` a nullable price
(pointer in Go) and `prevClose` the previous close. -/
structure LastPrice where
  last : Option ℚ
  prevClose : ℚ
deriving DecidableEq, Repr

/-- A JSON value, used for bodies produced by `json.NewEncoder(...).Encode`. -/
inductive Json where
  | null : Json
  | bool (b : Bool) : Json
  | num (q : ℚ) : Json
  | str (s : String) : Json
  | arr (elems : List Json) : Json
  | obj (fields : List (String × Json)) : Json

/-- A response body: either plain text written by `http.Error` / `w.Write`,
or a JSON value written by `json.NewEncoder`. -/
inductive RespBody where
  | text (s : String) : RespBody
  | json (j : Json) : RespBody

/-- An HTTP response as observed by the caller: status code and body. -/
structure HttpResponse where
  status : Nat
  body : RespBody

/-- Outcome of the one upstream `http.Get` a handler performs: either a
transport failure (`err != nil`, with a flag recording whether the transport
reported a timeout), or a response carrying a status code and a body of type
`β`. -/
inductive FetchResult (β : Type) where
  | netFailure (timeout : Bool) : FetchResult β
  | response (status : Nat) (body : β) : FetchResult β

/-- Go's `json` encoding of a `PricePoint` value. -/
def encodePricePoint (p : PricePoint) : Json :=
  Json.obj [("date", Json.str p.date), ("close", Json.num p.close)]

/-- Function `RespondIfError` from `src/utils.go`: when `condition` holds it writes
`statusCode` with body `{"detail": message}` and reports `true`; modelled as
the response it would write, `none` when it writes nothing.  (No handler in
`main.go` ever calls it.) -/
def RespondIfError (condition : Bool) (message : String) (statusCode : Nat) :
    Option HttpResponse :=
  if condition then
    some ⟨statusCode, RespBody.json (Json.obj [("detail", Json.str message)])⟩
  else
    none

/-- The `/health` handler from `main.go`: check the API key, GET a fixed
reference symbol upstream, answer `{"health": true}` on upstream 200 and
502 on any transport failure or non-200 status. -/
def healthHandler (apiKey : String) (upstream : FetchResult Unit) :
    HttpResponse :=
  if apiKey = "" then
    ⟨500, RespBody.text "missing API key"⟩
  else
    match upstream with
    | FetchResult.netFailure _ =>
        ⟨502, RespBody.text "error fetching from Tiingo"⟩
    | FetchResult.response status _ =>
        if status = 200 then
          ⟨200, RespBody.text "\x7b\"health\": true\x7d"⟩
        else
          ⟨502, RespBody.text "error fetching from Tiingo"⟩

/-- Query parameters of a `/stocks` request (absent parameter = `""`,
exactly as `r.URL.Query().Get` yields). -/
structure StocksQuery where
  ticker : String
  startDate : String
  interval : String
deriving DecidableEq, Repr

/-- The `/stocks` handler from `main.go`.  The upstream body is the result
of `json.Unmarshal` into `[]PricePoint`: `none` when unmarshalling failed
leaving the slice `nil` (encoded as JSON `null`), `some l` when it left the
list `l` in the slice — either a clean decode or a partially-populated
slice from a decode that errored midway. -/
def stocksHandler (q : StocksQuery) (apiKey : String)
    (upstream : FetchResult (Option (List PricePoint))) : HttpResponse :=
  if q.ticker = "" ∨ q.startDate = "" ∨ q.interval = "" then
    ⟨400, RespBody.text "missing query parameter"⟩
  else if apiKey = "" then
    ⟨500, RespBody.text "missing API key"⟩
  else
    match upstream with
    | FetchResult.netFailure _ =>
        ⟨502, RespBody.text "error fetching from Tiingo"⟩
    | FetchResult.response status decoded =>
        if status = 200 then
          -- json.Unmarshal's error is ignored; a failed decode leaves the
          -- nil slice, which json.NewEncoder renders as `null`.
          match decoded with
          | none => ⟨200, RespBody.json Json.null⟩
          | some l => ⟨200, RespBody.json (Json.arr (l.map encodePricePoint))⟩
        else
          ⟨502, RespBody.text "error fetching from Tiingo"⟩

/-- Query parameters of a `/check-alert` request. -/
structure AlertQuery where
  ticker : String
  priceStr : String
  direction : String
deriving DecidableEq, Repr

/-- Body `http.Error` writes when the upstream call for `/check-alert`
fails or returns non-200. -/
def alertUnavailableBody : String :=
  "\x7b\"valid\": false, \"message\": \"Ticker not found or data unavailable.\"\x7d"

/-- Body `http.Error` writes when the decoded quote array is empty. -/
def alertEmptyBody : String :=
  "\x7b\"valid\": false, \"message\": \"Ticker not found.\"\x7d"

/-- Body of the already-triggered-alert rejection:
`fmt.Sprintf("{\"message\": \"%s\"}", fmt.Sprintf("Current price is $%.2f, already %s $%.2f.", currentPrice, direction, price))`,
with `fmtPrice` standing for the external `%.2f` rendering. -/
def invalidAlertBody (fmtPrice : ℚ → String) (currentPrice : ℚ)
    (direction : String) (price : ℚ) : String :=
  "\x7b\"message\": \"Current price is $" ++ fmtPrice currentPrice ++
    ", already " ++ direction ++ " $" ++ fmtPrice price ++ ".\"\x7d"

/-- The success body of `/check-alert`:
`{"valid": true, "message": "Valid alert."}`. -/
def validAlertJson : Json :=
  Json.obj [("valid", Json.bool true), ("message", Json.str "Valid alert.")]

/-- The `/check-alert` handler from `main.go`.  `parseFloat` models
`strconv.ParseFloat` (`none` = parse error); `fmtPrice` models the `%.2f`
rendering; the upstream body is the `json.Unmarshal` result into
`[]LastPrice` with the same `none`-on-error convention as `/stocks`. -/
def checkAlertHandler (q : AlertQuery) (apiKey : String)
    (parseFloat : String → Option ℚ) (fmtPrice : ℚ → String)
    (upstream : FetchResult (Option (List LastPrice))) : HttpResponse :=
  if q.ticker = "" ∨ q.priceStr = "" ∨ q.direction = "" then
    ⟨400, RespBody.text "missing query parameter"⟩
  else
    match parseFloat q.priceStr with
    | none => ⟨400, RespBody.text "invalid price"⟩
    | some price =>
      if apiKey = "" then
        ⟨500, RespBody.text "missing API key"⟩
      else
        match upstream with
        | FetchResult.netFailure _ =>
            ⟨400, RespBody.text alertUnavailableBody⟩
        | FetchResult.response status decoded =>
            if status = 200 then
              -- The `if err != nil` check after json.Unmarshal in the Go
              -- source re-tests the (nil) http.Get error and is dead code.
              match decoded.getD [] with
              | [] => ⟨400, RespBody.text alertEmptyBody⟩
              | r :: _ =>
                -- Use last price if it exists (market open), else prevClose.
                let currentPrice :=
                  match r.last with
                  | some l => l
                  | none => r.prevClose
                if (q.direction = "below" ∧ currentPrice < price) ∨
                    (q.direction = "above" ∧ currentPrice > price) then
                  ⟨400, RespBody.text
                    (invalidAlertBody fmtPrice currentPrice q.direction price)⟩
                else
                  ⟨200, RespBody.json validAlertJson⟩
            else
              ⟨400, RespBody.text alertUnavailableBody⟩

/-- The current-price resolution rule of `/check-alert`, stated on its own
for comparison with the handler: `last` when present, else `prevClose`. -/
def currentPriceOf (r : LastPrice) : ℚ :=
  match r.last with
  | some l => l
  | none => r.prevClose

/-- The final decision block of `/check-alert` as a standalone function of
the resolved current price, the target, and the direction. -/
def alertDecision (fmtPrice : ℚ → String) (currentPrice price : ℚ)
    (direction : String) : HttpResponse :=
  if (direction = "below" ∧ currentPrice < price) ∨
      (direction = "above" ∧ currentPrice > price) then
    ⟨400, RespBody.text (invalidAlertBody fmtPrice currentPrice direction price)⟩
  else
    ⟨200, RespBody.json validAlertJson⟩

/-- Whether a response body is the uniform error shape
`{"detail": <message>}` that `RespondIfError` produces: a JSON object with
the single field `detail`. -/
def isDetailShaped : RespBody → Bool
  | RespBody.json (Json.obj [(k, _)]) => k == "detail"
  | _ => false

/-- Helper: once `/check-alert` resolves its inputs — all three query
parameters non-empty, the price parses, the API key is set, and the upstream
call returns 200 with a decoded non-empty quote array — the response is the
final decision block applied to the resolved current price. -/
theorem checkAlertHandler_resolved (q : AlertQuery) (apiKey : String)
    (parseFloat : String → Option ℚ) (fmtPrice : ℚ → String) (price : ℚ)
    (r : LastPrice) (rs : List LastPrice)
    (hq1 : q.ticker ≠ "") (hq2 : q.priceStr ≠ "") (hq3 : q.direction ≠ "")
    (hp : parseFloat q.priceStr = some price) (hk : apiKey ≠ "") :
    checkAlertHandler q apiKey parseFloat fmtPrice
      (FetchResult.response 200 (some (r :: rs))) =
    alertDecision fmtPrice (currentPriceOf r) price q.direction := by
  simp [checkAlertHandler, alertDecision, currentPriceOf, hp, hq1, hq2, hq3, hk]

/-- C1: for every resolved current price, target price, and direction, the
`/check-alert` handler reports the alert invalid (status 400 with the
descriptive already-triggered message) if and only if direction is
`"above"` and the current price is strictly greater than the target, or
direction is `"below"` and the current price is strictly less than the
target; in every other case it responds with the valid-alert success body
`{"valid": true, "message": "Valid alert."}`. -/
theorem checkAlert_invalid_iff_triggered (q : AlertQuery) (apiKey : String)
    (parseFloat : String → Option ℚ) (fmtPrice : ℚ → String) (price : ℚ)
    (r : LastPrice) (rs : List LastPrice)
    (hq1 : q.ticker ≠ "") (hq2 : q.priceStr ≠ "") (hq3 : q.direction ≠ "")
    (hp : parseFloat q.priceStr = some price) (hk : apiKey ≠ "") :
    (checkAlertHandler q apiKey parseFloat fmtPrice
        (FetchResult.response 200 (some (r :: rs))) =
      ⟨400, RespBody.text
        (invalidAlertBody fmtPrice (currentPriceOf r) q.direction price)⟩ ↔
      ((q.direction = "above" ∧ price < currentPriceOf r) ∨
        (q.direction = "below" ∧ currentPriceOf r < price))) ∧
    (checkAlertHandler q apiKey parseFloat fmtPrice
        (FetchResult.response 200 (some (r :: rs))) =
      ⟨200, RespBody.json validAlertJson⟩ ↔
      ¬((q.direction = "above" ∧ price < currentPriceOf r) ∨
        (q.direction = "below" ∧ currentPriceOf r < price))) := by
  rw [checkAlertHandler_resolved q apiKey parseFloat fmtPrice price r rs
    hq1 hq2 hq3 hp hk]
  unfold alertDecision
  by_cases h : (q.direction = "above" ∧ price < currentPriceOf r) ∨
      (q.direction = "below" ∧ currentPriceOf r < price)
  · rw [if_pos (by tauto)]
    constructor
    · simp [h]
    · constructor
      · intro heq
        exact absurd (congrArg HttpResponse.status heq) (by simp)
      · intro hn
        exact absurd h hn
  · rw [if_neg (by tauto)]
    constructor
    · constructor
      · intro heq
        exact absurd (congrArg HttpResponse.status heq) (by simp)
      · intro ht
        exact absurd ht h
    · simp [h]

/-- C1 witness: the spec's example — quote `last = 105`, target `100`,
direction `"above"` — is rejected with the descriptive 400 body. -/
theorem checkAlert_invalid_iff_triggered_witness :
    checkAlertHandler ⟨"AAPL", "100", "above"⟩ "key" (fun _ => some 100)
        (fun _ => "p") (FetchResult.response 200 (some [⟨some 105, 0⟩])) =
      ⟨400, RespBody.text (invalidAlertBody (fun _ => "p") 105 "above" 100)⟩ :=
  (checkAlert_invalid_iff_triggered ⟨"AAPL", "100", "above"⟩ "key"
    (fun _ => some 100) (fun _ => "p") 100 ⟨some 105, 0⟩ []
    (by decide) (by decide) (by decide) rfl (by decide)).1.mpr
    (Or.inl ⟨rfl, by decide⟩)

/-- C3: the current price fed into the `/check-alert` decision is the
snapshot's `last` price when that field is present, and the snapshot's
previous close when `last` is absent. -/
theorem checkAlert_currentPrice_resolution (q : AlertQuery) (apiKey : String)
    (parseFloat : String → Option ℚ) (fmtPrice : ℚ → String) (price : ℚ)
    (r : LastPrice) (rs : List LastPrice)
    (hq1 : q.ticker ≠ "") (hq2 : q.priceStr ≠ "") (hq3 : q.direction ≠ "")
    (hp : parseFloat q.priceStr = some price) (hk : apiKey ≠ "") :
    (∀ l, r.last = some l →
      checkAlertHandler q apiKey parseFloat fmtPrice
          (FetchResult.response 200 (some (r :: rs))) =
        alertDecision fmtPrice l price q.direction) ∧
    (r.last = none →
      checkAlertHandler q apiKey parseFloat fmtPrice
          (FetchResult.response 200 (some (r :: rs))) =
        alertDecision fmtPrice r.prevClose price q.direction) := by
  constructor
  · intro l hl
    rw [checkAlertHandler_resolved q apiKey parseFloat fmtPrice price r rs
      hq1 hq2 hq3 hp hk]
    simp [currentPriceOf, hl]
  · intro hn
    rw [checkAlertHandler_resolved q apiKey parseFloat fmtPrice price r rs
      hq1 hq2 hq3 hp hk]
    simp [currentPriceOf, hn]

/-- C3 witness: the spec's example — `last = null`, `previousClose = 95`,
target `100`, direction `"above"` — decides on 95, hence a valid alert. -/
theorem checkAlert_currentPrice_resolution_witness :
    checkAlertHandler ⟨"AAPL", "100", "above"⟩ "key" (fun _ => some 100)
        (fun _ => "p") (FetchResult.response 200 (some [⟨none, 95⟩])) =
      alertDecision (fun _ => "p") 95 100 "above" :=
  (checkAlert_currentPrice_resolution ⟨"AAPL", "100", "above"⟩ "key"
    (fun _ => some 100) (fun _ => "p") 100 ⟨none, 95⟩ []
    (by decide) (by decide) (by decide) rfl (by decide)).2 rfl

/-- C6: a non-empty `direction` that is neither `"above"` nor `"below"`
falls through both comparison branches, so the handler reports the alert
valid instead of rejecting the request. -/
theorem checkAlert_unknown_direction_valid (q : AlertQuery) (apiKey : String)
    (parseFloat : String → Option ℚ) (fmtPrice : ℚ → String) (price : ℚ)
    (r : LastPrice) (rs : List LastPrice)
    (hq1 : q.ticker ≠ "") (hq2 : q.priceStr ≠ "") (hq3 : q.direction ≠ "")
    (hp : parseFloat q.priceStr = some price) (hk : apiKey ≠ "")
    (hda : q.direction ≠ "above") (hdb : q.direction ≠ "below") :
    checkAlertHandler q apiKey parseFloat fmtPrice
        (FetchResult.response 200 (some (r :: rs))) =
      ⟨200, RespBody.json validAlertJson⟩ := by
  rw [checkAlertHandler_resolved q apiKey parseFloat fmtPrice price r rs
    hq1 hq2 hq3 hp hk]
  unfold alertDecision
  rw [if_neg (by tauto)]

/-- C6 witness: direction `"sideways"` with current price 105 against
target 100 is reported valid. -/
theorem checkAlert_unknown_direction_valid_witness :
    checkAlertHandler ⟨"AAPL", "100", "sideways"⟩ "key" (fun _ => some 100)
        (fun _ => "p") (FetchResult.response 200 (some [⟨some 105, 0⟩])) =
      ⟨200, RespBody.json validAlertJson⟩ :=
  checkAlert_unknown_direction_valid ⟨"AAPL", "100", "sideways"⟩ "key"
    (fun _ => some 100) (fun _ => "p") 100 ⟨some 105, 0⟩ []
    (by decide) (by decide) (by decide) rfl (by decide) (by decide) (by decide)

/-- C2 counterexample: with an upstream 200 whose decoded result is the
empty array, `/stocks` responds 200 (relaying an empty array) and
`/check-alert` responds 400 — neither responds 404 as claimed. -/
theorem emptyResult_not_404 :
    (stocksHandler ⟨"AAPL", "2024-01-01", "daily"⟩ "key"
        (FetchResult.response 200 (some []))).status = 200 ∧
    (checkAlertHandler ⟨"AAPL", "100", "above"⟩ "key" (fun _ => some 100)
        (fun _ => "p") (FetchResult.response 200 (some []))).status = 400 :=
  ⟨rfl, rfl⟩

/-- C2 amended: on a successful upstream call decoding to an empty array,
`/stocks` responds 200 with the empty JSON array and `/check-alert`
responds 400 with the ticker-not-found body; neither returns 404. -/
theorem emptyResult_statuses (q : StocksQuery) (q' : AlertQuery)
    (key key' : String) (parseFloat : String → Option ℚ)
    (fmtPrice : ℚ → String) (price : ℚ)
    (h1 : q.ticker ≠ "") (h2 : q.startDate ≠ "") (h3 : q.interval ≠ "")
    (hk : key ≠ "")
    (hq1 : q'.ticker ≠ "") (hq2 : q'.priceStr ≠ "") (hq3 : q'.direction ≠ "")
    (hp : parseFloat q'.priceStr = some price) (hk' : key' ≠ "") :
    stocksHandler q key (FetchResult.response 200 (some [])) =
      ⟨200, RespBody.json (Json.arr [])⟩ ∧
    checkAlertHandler q' key' parseFloat fmtPrice
        (FetchResult.response 200 (some [])) =
      ⟨400, RespBody.text alertEmptyBody⟩ := by
  constructor
  · simp [stocksHandler, h1, h2, h3, hk]
  · simp [checkAlertHandler, hq1, hq2, hq3, hp, hk']

/-- C2 amended witness: concrete empty-array responses for both routes. -/
theorem emptyResult_statuses_witness :
    stocksHandler ⟨"AAPL", "2024-01-01", "daily"⟩ "key"
        (FetchResult.response 200 (some [])) =
      ⟨200, RespBody.json (Json.arr [])⟩ ∧
    checkAlertHandler ⟨"AAPL", "100", "above"⟩ "key" (fun _ => some 100)
        (fun _ => "p") (FetchResult.response 200 (some [])) =
      ⟨400, RespBody.text alertEmptyBody⟩ :=
  emptyResult_statuses ⟨"AAPL", "2024-01-01", "daily"⟩ ⟨"AAPL", "100", "above"⟩
    "key" "key" (fun _ => some 100) (fun _ => "p") 100
    (by decide) (by decide) (by decide) (by decide)
    (by decide) (by decide) (by decide) rfl (by decide)

/-- C4 counterexample: an upstream timeout yields 502 (not 504) from
`/health`, and an upstream connection failure yields 400 (not 502) from
`/check-alert` — the code neither emits 504 nor maps every handler's
upstream failure to 502. -/
theorem upstreamFailure_not_distinguished :
    (healthHandler "key" (FetchResult.netFailure true)).status = 502 ∧
    (checkAlertHandler ⟨"AAPL", "100", "above"⟩ "key" (fun _ => some 100)
        (fun _ => "p") (FetchResult.netFailure false)).status = 400 :=
  ⟨rfl, rfl⟩

/-- C4 amended: `/health` and `/stocks` map every upstream connection
failure — timeout or not — and every non-200 upstream status to 502, while
`/check-alert` maps them to 400 with an ad-hoc message body; no handler
ever responds 504. -/
theorem upstreamFailure_statuses :
    (∀ (key : String) (t : Bool), key ≠ "" →
      healthHandler key (FetchResult.netFailure t) =
        ⟨502, RespBody.text "error fetching from Tiingo"⟩) ∧
    (∀ (key : String) (s : Nat) (b : Unit), key ≠ "" → s ≠ 200 →
      healthHandler key (FetchResult.response s b) =
        ⟨502, RespBody.text "error fetching from Tiingo"⟩) ∧
    (∀ (q : StocksQuery) (key : String) (t : Bool),
      q.ticker ≠ "" → q.startDate ≠ "" → q.interval ≠ "" → key ≠ "" →
      stocksHandler q key (FetchResult.netFailure t) =
        ⟨502, RespBody.text "error fetching from Tiingo"⟩) ∧
    (∀ (q : StocksQuery) (key : String) (s : Nat)
        (d : Option (List PricePoint)),
      q.ticker ≠ "" → q.startDate ≠ "" → q.interval ≠ "" → key ≠ "" →
      s ≠ 200 →
      stocksHandler q key (FetchResult.response s d) =
        ⟨502, RespBody.text "error fetching from Tiingo"⟩) ∧
    (∀ (q : AlertQuery) (key : String) (parseFloat : String → Option ℚ)
        (fmtPrice : ℚ → String) (price : ℚ) (t : Bool),
      q.ticker ≠ "" → q.priceStr ≠ "" → q.direction ≠ "" →
      parseFloat q.priceStr = some price → key ≠ "" →
      checkAlertHandler q key parseFloat fmtPrice (FetchResult.netFailure t) =
        ⟨400, RespBody.text alertUnavailableBody⟩) ∧
    (∀ (q : AlertQuery) (key : String) (parseFloat : String → Option ℚ)
        (fmtPrice : ℚ → String) (price : ℚ) (s : Nat)
        (d : Option (List LastPrice)),
      q.ticker ≠ "" → q.priceStr ≠ "" → q.direction ≠ "" →
      parseFloat q.priceStr = some price → key ≠ "" → s ≠ 200 →
      checkAlertHandler q key parseFloat fmtPrice (FetchResult.response s d) =
        ⟨400, RespBody.text alertUnavailableBody⟩) ∧
    (∀ (key : String) (u : FetchResult Unit),
      (healthHandler key u).status ≠ 504) ∧
    (∀ (q : StocksQuery) (key : String)
        (u : FetchResult (Option (List PricePoint))),
      (stocksHandler q key u).status ≠ 504) ∧
    (∀ (q : AlertQuery) (key : String) (parseFloat : String → Option ℚ)
        (fmtPrice : ℚ → String) (u : FetchResult (Option (List LastPrice))),
      (checkAlertHandler q key parseFloat fmtPrice u).status ≠ 504) := by
  refine ⟨?_, ?_, ?_, ?_, ?_, ?_, ?_, ?_, ?_⟩
  · intro key t hk
    simp [healthHandler, hk]
  · intro key s b hk hs
    simp [healthHandler, hk, hs]
  · intro q key t h1 h2 h3 hk
    simp [stocksHandler, h1, h2, h3, hk]
  · intro q key s d h1 h2 h3 hk hs
    simp [stocksHandler, h1, h2, h3, hk, hs]
  · intro q key pf fp price t hq1 hq2 hq3 hp hk
    simp [checkAlertHandler, hq1, hq2, hq3, hp, hk]
  · intro q key pf fp price s d hq1 hq2 hq3 hp hk hs
    simp [checkAlertHandler, hq1, hq2, hq3, hp, hk, hs]
  · intro key u
    unfold healthHandler
    repeat' split
    all_goals simp
  · intro q key u
    unfold stocksHandler
    repeat' split
    all_goals simp
  · intro q key pf fp u
    unfold checkAlertHandler
    repeat' split
    all_goals try rw [apply_ite HttpResponse.status]
    all_goals try split
    all_goals simp

/-- C4 amended witness: the 502 mapping of `/health` at a concrete timeout
failure. -/
theorem upstreamFailure_statuses_witness :
    healthHandler "key" (FetchResult.netFailure true) =
      ⟨502, RespBody.text "error fetching from Tiingo"⟩ :=
  upstreamFailure_statuses.1 "key" true (by decide)

/-- C7 counterexample: two `/stocks` requests with different sets of absent
parameters (only `ticker` missing vs. `startDate` and `interval` missing)
produce the identical response with the fixed body
`missing query parameter`, so the body cannot be naming which required
fields were absent. -/
theorem missingParam_body_uninformative :
    stocksHandler ⟨"", "2024-01-01", "daily"⟩ "key"
        (FetchResult.response 200 (some [])) =
      stocksHandler ⟨"AAPL", "", ""⟩ "key"
        (FetchResult.response 200 (some [])) ∧
    (stocksHandler ⟨"", "2024-01-01", "daily"⟩ "key"
        (FetchResult.response 200 (some []))).body =
      RespBody.text "missing query parameter" :=
  ⟨rfl, rfl⟩

/-- C7 amended: a request to `/stocks` or `/check-alert` missing at least
one required query parameter gets status 400, with the fixed body
`missing query parameter` that does not name the absent fields. -/
theorem missingParam_status400 (q : StocksQuery) (q' : AlertQuery)
    (key key' : String) (parseFloat : String → Option ℚ)
    (fmtPrice : ℚ → String)
    (u : FetchResult (Option (List PricePoint)))
    (u' : FetchResult (Option (List LastPrice)))
    (hm : q.ticker = "" ∨ q.startDate = "" ∨ q.interval = "")
    (hm' : q'.ticker = "" ∨ q'.priceStr = "" ∨ q'.direction = "") :
    stocksHandler q key u = ⟨400, RespBody.text "missing query parameter"⟩ ∧
    checkAlertHandler q' key' parseFloat fmtPrice u' =
      ⟨400, RespBody.text "missing query parameter"⟩ := by
  constructor
  · unfold stocksHandler
    rw [if_pos hm]
  · unfold checkAlertHandler
    rw [if_pos hm']

/-- C7 amended witness: concrete missing-parameter requests on both
routes. -/
theorem missingParam_status400_witness :
    stocksHandler ⟨"", "2024-01-01", "daily"⟩ "key"
        (FetchResult.response 200 (some [])) =
      ⟨400, RespBody.text "missing query parameter"⟩ ∧
    checkAlertHandler ⟨"AAPL", "", "above"⟩ "key" (fun _ => some 100)
        (fun _ => "p") (FetchResult.response 200 (some [])) =
      ⟨400, RespBody.text "missing query parameter"⟩ :=
  missingParam_status400 ⟨"", "2024-01-01", "daily"⟩ ⟨"AAPL", "", "above"⟩
    "key" "key" (fun _ => some 100) (fun _ => "p")
    (FetchResult.response 200 (some [])) (FetchResult.response 200 (some []))
    (Or.inl rfl) (Or.inr (Or.inl rfl))

/-- C5 counterexample: the missing-parameter rejection of `/stocks` is an
error response (status 400) whose body is the plain `http.Error` text, not
the uniform `{"detail": <message>}` JSON shape. -/
theorem errorBody_not_detail :
    (stocksHandler ⟨"", "2024-01-01", "daily"⟩ "key"
        (FetchResult.response 200 (some []))).status = 400 ∧
    isDetailShaped (stocksHandler ⟨"", "2024-01-01", "daily"⟩ "key"
        (FetchResult.response 200 (some []))).body = false :=
  ⟨rfl, rfl⟩

/-- C5 amended: `RespondIfError` (from `utils.go`) does produce the uniform
`{"detail": <message>}` error shape, but no response any of the three
handlers emits — error or success — ever has that shape: the handlers write
their errors through `http.Error` as plain text (or ad-hoc JSON strings)
and never call `RespondIfError`. -/
theorem handlers_never_emit_detail_shape :
    (∀ (msg : String) (code : Nat), ∃ resp,
      RespondIfError true msg code = some resp ∧
      isDetailShaped resp.body = true) ∧
    (∀ (key : String) (u : FetchResult Unit),
      isDetailShaped (healthHandler key u).body = false) ∧
    (∀ (q : StocksQuery) (key : String)
        (u : FetchResult (Option (List PricePoint))),
      isDetailShaped (stocksHandler q key u).body = false) ∧
    (∀ (q : AlertQuery) (key : String) (parseFloat : String → Option ℚ)
        (fmtPrice : ℚ → String) (u : FetchResult (Option (List LastPrice))),
      isDetailShaped (checkAlertHandler q key parseFloat fmtPrice u).body =
        false) := by
  refine ⟨?_, ?_, ?_, ?_⟩
  · intro msg code
    exact ⟨_, rfl, rfl⟩
  · intro key u
    unfold healthHandler
    repeat' split
    all_goals simp [isDetailShaped]
  · intro q key u
    unfold stocksHandler
    repeat' split
    all_goals simp [isDetailShaped]
  · intro q key pf fp u
    unfold checkAlertHandler
    repeat' split
    all_goals try rw [apply_ite HttpResponse.body]
    all_goals try split
    all_goals simp [isDetailShaped, validAlertJson]

/-- C8: a successful `/stocks` response body is the JSON array of exactly
the price points decoded upstream, in the same order and with the same
count. -/
theorem stocks_roundtrip (q : StocksQuery) (key : String)
    (l : List PricePoint)
    (h1 : q.ticker ≠ "") (h2 : q.startDate ≠ "") (h3 : q.interval ≠ "")
    (hk : key ≠ "") :
    stocksHandler q key (FetchResult.response 200 (some l)) =
      ⟨200, RespBody.json (Json.arr (l.map encodePricePoint))⟩ ∧
    (l.map encodePricePoint).length = l.length := by
  constructor
  · simp [stocksHandler, h1, h2, h3, hk]
  · simp

/-- C8 witness: a concrete two-point series is relayed verbatim. -/
theorem stocks_roundtrip_witness :
    stocksHandler ⟨"AAPL", "2024-01-01", "daily"⟩ "key"
        (FetchResult.response 200
          (some [⟨"2024-01-02", 101⟩, ⟨"2024-01-03", 99⟩])) =
      ⟨200, RespBody.json (Json.arr
        ([⟨"2024-01-02", 101⟩, ⟨"2024-01-03", 99⟩].map encodePricePoint))⟩ :=
  (stocks_roundtrip ⟨"AAPL", "2024-01-01", "daily"⟩ "key"
    [⟨"2024-01-02", 101⟩, ⟨"2024-01-03", 99⟩]
    (by decide) (by decide) (by decide) (by decide)).1

/-- C9: each handler is a pure function of the request parameters, the API
key, and the upstream data it was given — the embedding takes every value
the Go handler reads as an explicit argument, and two executions on equal
inputs produce equal responses. -/
theorem handlers_deterministic :
    (∀ (k k' : String) (u u' : FetchResult Unit),
      k = k' → u = u' → healthHandler k u = healthHandler k' u') ∧
    (∀ (q q' : StocksQuery) (k k' : String)
        (u u' : FetchResult (Option (List PricePoint))),
      q = q' → k = k' → u = u' →
      stocksHandler q k u = stocksHandler q' k' u') ∧
    (∀ (q q' : AlertQuery) (k k' : String)
        (pf pf' : String → Option ℚ) (fp fp' : ℚ → String)
        (u u' : FetchResult (Option (List LastPrice))),
      q = q' → k = k' → pf = pf' → fp = fp' → u = u' →
      checkAlertHandler q k pf fp u = checkAlertHandler q' k' pf' fp' u') := by
  refine ⟨?_, ?_, ?_⟩ <;> intros <;> subst_vars <;> rfl

/-- C9 witness: two identical `/check-alert` executions at a concrete input
agree. -/
theorem handlers_deterministic_witness :
    checkAlertHandler ⟨"AAPL", "100", "above"⟩ "key" (fun _ => some 100)
        (fun _ => "p") (FetchResult.response 200 (some [⟨some 105, 0⟩])) =
      checkAlertHandler ⟨"AAPL", "100", "above"⟩ "key" (fun _ => some 100)
        (fun _ => "p") (FetchResult.response 200 (some [⟨some 105, 0⟩])) :=
  handlers_deterministic.2.2 ⟨"AAPL", "100", "above"⟩ ⟨"AAPL", "100", "above"⟩
    "key" "key" (fun _ => some 100) (fun _ => some 100)
    (fun _ => "p") (fun _ => "p")
    (FetchResult.response 200 (some [⟨some 105, 0⟩]))
    (FetchResult.response 200 (some [⟨some 105, 0⟩]))
    rfl rfl rfl rfl rfl

/-- C10 counterexample: an upstream body that fails to decode as price
points need not produce the `null` array.  Go's `json.Unmarshal` on a
field-type mismatch (e.g. `[{"date":"2024-01-02","close":"oops"}]`) returns
an error after partially populating the slice — here
`[{Date:"2024-01-02", Close:0}]` — and the handler relays that
partially-populated array with 200, not the JSON `null`. -/
theorem stocks_partialDecode_not_null :
    (stocksHandler ⟨"AAPL", "2024-01-01", "daily"⟩ "key"
        (FetchResult.response 200 (some [⟨"2024-01-02", 0⟩]))).status = 200 ∧
    (stocksHandler ⟨"AAPL", "2024-01-01", "daily"⟩ "key"
        (FetchResult.response 200 (some [⟨"2024-01-02", 0⟩]))).body ≠
      RespBody.json Json.null := by
  constructor
  · rfl
  · intro h
    injection h with h'
    exact Json.noConfusion h'

/-- C10 amended: when the upstream returns 200, the `json.Unmarshal` error
is ignored and never surfaced — the status is 200 whatever the decode left
in the slice.  A decode failure that leaves the slice nil is rendered as
the JSON `null`; any decode that leaves a list (clean or partially
populated before the error) is relayed as that array. -/
theorem stocks_unmarshalError_ignored (q : StocksQuery) (key : String)
    (d : Option (List PricePoint))
    (h1 : q.ticker ≠ "") (h2 : q.startDate ≠ "") (h3 : q.interval ≠ "")
    (hk : key ≠ "") :
    (stocksHandler q key (FetchResult.response 200 d)).status = 200 ∧
    stocksHandler q key (FetchResult.response 200 none) =
      ⟨200, RespBody.json Json.null⟩ ∧
    (∀ l, stocksHandler q key (FetchResult.response 200 (some l)) =
      ⟨200, RespBody.json (Json.arr (l.map encodePricePoint))⟩) := by
  refine ⟨?_, ?_, ?_⟩
  · rcases d with _ | l <;> simp [stocksHandler, h1, h2, h3, hk]
  · simp [stocksHandler, h1, h2, h3, hk]
  · intro l
    simp [stocksHandler, h1, h2, h3, hk]

/-- C10 amended witness: a concrete nil-slice decode failure yields the 200
`null` response, and the partially-populated slice of the counterexample
body is relayed with 200. -/
theorem stocks_unmarshalError_ignored_witness :
    stocksHandler ⟨"AAPL", "2024-01-01", "daily"⟩ "key"
        (FetchResult.response 200 none) =
      ⟨200, RespBody.json Json.null⟩ ∧
    (stocksHandler ⟨"AAPL", "2024-01-01", "daily"⟩ "key"
        (FetchResult.response 200 (some [⟨"2024-01-02", 0⟩]))).status = 200 :=
  ⟨(stocks_unmarshalError_ignored ⟨"AAPL", "2024-01-01", "daily"⟩ "key" none
      (by decide) (by decide) (by decide) (by decide)).2.1,
    (stocks_unmarshalError_ignored ⟨"AAPL", "2024-01-01", "daily"⟩ "key"
      (some [⟨"2024-01-02", 0⟩])
      (by decide) (by decide) (by decide) (by decide)).1⟩

end MarketService
